import Mathlib

/-!
Verification of the Code Factory preflight gate
(`scripts/code_factory_contract.py`, `scripts/preflight_gate.py`).

The development shallowly embeds the Python modules:

* glob matching (`fnmatch.fnmatch`, the CPython matcher the repository
  delegates to) as a tokenizer plus a token matcher;
* JSON documents as the inductive `JValue`, with Python `isinstance`
  and `==` semantics made explicit (`bool` is a subclass of `int`);
* the structural validator `_validate_against_schema`, the loader
  `load_contract`, the resolver `required_checks_for_files`, the
  drift detector `docs_drift_violations`, the check runner
  `_run_check`, and the orchestrator `main` (as `main_run`).

Exceptions are modelled with `Except String`: `.error` is a raised
`ContractValidationError` (or, for the runner/orchestrator, an
uncaught `subprocess.TimeoutExpired`).
-/

/-! ## Glob matching: model of CPython `fnmatch.fnmatch` (POSIX `normcase`)

`fnmatch.translate` turns a pattern into a regex: `*` becomes `.*`
(matching any characters, `/` included, because of `re.DOTALL`),
`?` becomes `.`, `[...]` becomes a character class (leading `!`
negates, a `]` right after the opening is a literal member, an
unterminated `[` is a literal `[`), everything else is literal, and
the regex must match the whole name. -/

inductive Tok where
  | star : Tok
  | question : Tok
  | lit : Char → Tok
  | cls : Bool → List (Char × Char) → Tok
deriving Repr, DecidableEq

/-- Scan up to the first unescaped closing bracket; returns the body and the
remainder after the bracket, or `none` when the bracket is unterminated. -/
def findClose : List Char → Option (List Char × List Char)
  | [] => none
  | c :: rest =>
    if c = ']' then some ([], rest)
    else (findClose rest).map (fun br => (c :: br.1, br.2))

/-- Span of a character-class body, mirroring the scan in
`fnmatch.translate`: an optional leading `!`, then an optional literal
`]`, then everything up to the closing `]`. -/
def classSpan (s : List Char) : Option (List Char × List Char) :=
  match s with
  | [] => none
  | c :: rest =>
    if c = '!' then
      match rest with
      | [] => none
      | d :: t =>
        if d = ']' then (findClose t).map (fun br => ('!' :: ']' :: br.1, br.2))
        else (findClose rest).map (fun br => ('!' :: br.1, br.2))
    else if c = ']' then (findClose rest).map (fun br => (']' :: br.1, br.2))
    else findClose s

/-- Items of a character-class body: `x-y` is a range (a `-` first or
last is a literal), any other character stands for itself. -/
def classItems : List Char → List (Char × Char)
  | [] => []
  | a :: '-' :: b :: rest => (a, b) :: classItems rest
  | a :: rest => (a, a) :: classItems rest

/-- Build the class token for a scanned body (a leading `!` negates). -/
def classTok (body : List Char) : Tok :=
  match body with
  | '!' :: items => Tok.cls true (classItems items)
  | items => Tok.cls false (classItems items)

/-- Fuel-driven pattern tokenizer; `fuel` bounds the recursion depth and
every step consumes at least one pattern character, so `s.length` fuel
always suffices (see `tokenize`). -/
def tokenizeFuel : Nat → List Char → List Tok
  | 0, _ => []
  | _ + 1, [] => []
  | fuel + 1, c :: rest =>
    if c = '*' then Tok.star :: tokenizeFuel fuel rest
    else if c = '?' then Tok.question :: tokenizeFuel fuel rest
    else if c = '[' then
      match classSpan rest with
      | none => Tok.lit '[' :: tokenizeFuel fuel rest
      | some (body, rest2) => classTok body :: tokenizeFuel fuel rest2
    else Tok.lit c :: tokenizeFuel fuel rest

/-- Tokenize a glob pattern the way `fnmatch.translate` parses it. -/
def tokenize (s : List Char) : List Tok := tokenizeFuel s.length s

/-- Membership in a character class: inside one of the listed
(codepoint-ordered, inclusive) ranges. -/
def inClass (items : List (Char × Char)) (c : Char) : Bool :=
  items.any (fun ab => ab.1 ≤ c && c ≤ ab.2)

/-- Every suffix of a list, longest first (used for `.*` backtracking). -/
def suffixes : List Char → List (List Char)
  | [] => [[]]
  | c :: t => (c :: t) :: suffixes t

/-- Match a token list against a name, with full-anchoring semantics:
`star` matches an arbitrary run of characters (`/` included, since the
translated regex runs under `re.DOTALL`), `question` exactly one
character, a literal exactly itself, a class one character tested
against its ranges. -/
def matchToks : List Tok → List Char → Bool
  | [], s => s.isEmpty
  | Tok.star :: ps, s => (suffixes s).any (fun t => matchToks ps t)
  | Tok.question :: ps, s =>
    match s with
    | [] => false
    | _ :: t => matchToks ps t
  | Tok.lit a :: ps, s =>
    match s with
    | [] => false
    | c :: t => a == c && matchToks ps t
  | Tok.cls neg items :: ps, s =>
    match s with
    | [] => false
    | c :: t => (inClass items c != neg) && matchToks ps t

/-- Model of `fnmatch.fnmatch(name, pat)` on a POSIX host (where
`os.path.normcase` is the identity). -/
def fnmatch (name pat : String) : Bool :=
  matchToks (tokenize pat.toList) name.toList


/-! ## JSON documents with Python runtime semantics

`JValue` is a parsed JSON document. Python type facts that the source
relies on are made explicit: `bool` is a subclass of `int` (so
`isinstance(True, int)` holds), and `==` compares numbers across
`bool`/`int`/`float`. Floats are represented as rationals; no claim
exercises float rounding. -/

inductive JValue where
  | null : JValue
  | bool : Bool → JValue
  | int : Int → JValue
  | float : Rat → JValue
  | str : String → JValue
  | arr : List JValue → JValue
  | obj : List (String × JValue) → JValue
deriving Repr

def JValue.isObj : JValue → Bool
  | .obj _ => true
  | _ => false

def JValue.isArr : JValue → Bool
  | .arr _ => true
  | _ => false

def JValue.isStr : JValue → Bool
  | .str _ => true
  | _ => false

def JValue.isBool : JValue → Bool
  | .bool _ => true
  | _ => false

def JValue.isInt : JValue → Bool
  | .int _ => true
  | _ => false

def JValue.isFloat : JValue → Bool
  | .float _ => true
  | _ => false

/-- Python `dict.get(key)` on a parsed JSON object (keys are unique). -/
def jget (v : JValue) (k : String) : Option JValue :=
  match v with
  | .obj kvs => List.lookup k kvs
  | _ => none

/-- Python truthiness of a parsed JSON value. -/
def pyTruthy : JValue → Bool
  | .null => false
  | .bool b => b
  | .int n => n != 0
  | .float q => q != 0
  | .str s => s != ""
  | .arr xs => !xs.isEmpty
  | .obj kvs => !kvs.isEmpty

/-- Numeric reading of a value, when Python treats it as a number
(`bool` counts: `True` reads as 1, `False` as 0). -/
def numVal : JValue → Option Rat
  | .bool b => some (if b then 1 else 0)
  | .int n => some (n : Rat)
  | .float q => some q
  | _ => none

mutual
/-- Python `==` on parsed JSON values: numbers compare across
`bool`/`int`/`float` by value, strings by content, lists elementwise,
dicts by key lookup (keys of parsed JSON objects are unique). -/
def pyEq : JValue → JValue → Bool
  | .str x, .str y => x == y
  | .null, .null => true
  | .arr xs, .arr ys => pyEqArr xs ys
  | .obj xs, .obj ys => xs.length == ys.length && pyEqObj xs ys
  | a, b =>
    match numVal a, numVal b with
    | some x, some y => x == y
    | _, _ => false

def pyEqArr : List JValue → List JValue → Bool
  | [], [] => true
  | x :: xs, y :: ys => pyEq x y && pyEqArr xs ys
  | _, _ => false

def pyEqObj : List (String × JValue) → List (String × JValue) → Bool
  | [], _ => true
  | (k, v) :: rest, ys =>
    (match List.lookup k ys with
     | some w => pyEq v w
     | none => false) && pyEqObj rest ys
end

/-- Python `type(x).__name__` for a parsed JSON value. -/
def pyTypeName : JValue → String
  | .null => "NoneType"
  | .bool _ => "bool"
  | .int _ => "int"
  | .float _ => "float"
  | .str _ => "str"
  | .arr _ => "list"
  | .obj _ => "dict"

/-- Python `str()` rendering, as used by the f-string diagnostics
(approximate for floats; no claim inspects a float message). -/
def jstr : JValue → String
  | .null => "None"
  | .bool b => if b then "True" else "False"
  | .int n => toString n
  | .float q => toString q
  | .str s => s
  | .arr _ => "[...]"
  | .obj _ => "\x7b...\x7d"

/-- Python `repr()` rendering for the enum diagnostic (string quoting
is approximate; no claim inspects an enum message). -/
def jrepr : JValue → String
  | .str s => "\x27" ++ s ++ "\x27"
  | v => jstr v


/-! ## Structural validator (`_validate_against_schema`) -/

/-- Model of `_type_name(expected)` combined with the `isinstance`
check: `some ok` gives the outcome of `isinstance(data, mapping[expected])`
for a recognized type name, `none` means the name is unsupported and
`ContractValidationError("unsupported schema type: ...")` is raised.
Note `isinstance(x, int)` is true for booleans (bool subclasses int),
so `integer` and `number` accept booleans at this step. -/
def type_matches (t : String) (v : JValue) : Option Bool :=
  if t == "object" then some v.isObj
  else if t == "array" then some v.isArr
  else if t == "string" then some v.isStr
  else if t == "integer" then some (v.isBool || v.isInt)
  else if t == "number" then some (v.isBool || v.isInt || v.isFloat)
  else if t == "boolean" then some v.isBool
  else none

/-- Lines 31-39 of the validator: the type check. The guard is Python
truthiness of `schema.get("type")`; a non-string truthy value falls
into `_type_name`'s unsupported branch. After the `isinstance` check, a
boolean is explicitly rejected where `integer` is expected. -/
def checkTypeStep (data schema : JValue) (path : String) : Except String Unit :=
  match jget schema "type" with
  | none => Except.ok ()
  | some expected =>
    if pyTruthy expected then
      match expected with
      | .str t =>
        match type_matches t data with
        | none => Except.error ("unsupported schema type: " ++ t)
        | some ok =>
          if !ok then
            Except.error (path ++ ": expected " ++ t ++ ", got " ++ pyTypeName data)
          else if t == "integer" && data.isBool then
            Except.error (path ++ ": expected integer, got boolean")
          else Except.ok ()
      | other => Except.error ("unsupported schema type: " ++ jstr other)
    else Except.ok ()

/-- Lines 41-45: the enum check (`data not in enum_values` under Python
`==`). A present non-sequence enum would raise `TypeError` in Python
and is outside the modelled domain (treated as passing). -/
def checkEnumStep (data schema : JValue) (path : String) : Except String Unit :=
  match jget schema "enum" with
  | none => Except.ok ()
  | some .null => Except.ok ()
  | some (.arr vs) =>
    if !(vs.any (fun e => pyEq data e)) then
      Except.error (path ++ ": value " ++ jrepr data ++ " is not in enum " ++ jrepr (.arr vs))
    else Except.ok ()
  | some _ => Except.ok ()

/-- Lines 47-51: the minimum check, applied only when
`isinstance(data, (int, float))` (booleans included). A non-numeric
bound would raise `TypeError` in Python and is outside the modelled
domain (treated as passing). -/
def checkMinStep (data schema : JValue) (path : String) : Except String Unit :=
  match jget schema "minimum" with
  | none => Except.ok ()
  | some m =>
    match numVal data, numVal m with
    | some x, some mv =>
      if x < mv then
        Except.error (path ++ ": value " ++ jstr data ++ " is lower than minimum " ++ jstr m)
      else Except.ok ()
    | _, _ => Except.ok ()

/-- Elements of `schema.get("required", [])` (empty for an absent or
non-sequence entry). -/
def getRequired (schema : JValue) : List JValue :=
  match jget schema "required" with
  | some (.arr rs) => rs
  | _ => []

/-- Entries of `schema.get("properties", {})` (empty for an absent or
non-mapping entry). -/
def getProperties (schema : JValue) : List (String × JValue) :=
  match jget schema "properties" with
  | some (.obj ps) => ps
  | _ => []

/-- Value of `schema.get("additionalProperties")` when it is a mapping
(`isinstance(additional, dict)`), otherwise `none`. -/
def getAdditional (schema : JValue) : Option JValue :=
  match jget schema "additionalProperties" with
  | some (.obj o) => some (.obj o)
  | _ => none

/-- First entry of `required` missing from the data object: a non-string
required entry can never be a key of a parsed JSON object. -/
def firstMissing (kvs : List (String × JValue)) : List JValue → Option JValue
  | [] => none
  | e :: rest =>
    let present :=
      match e with
      | .str k => (List.lookup k kvs).isSome
      | _ => false
    if present then firstMissing kvs rest else some e

mutual
/-- Model of `_validate_against_schema(data, schema, path)`: type,
enum and minimum checks in order, then the object walk (required keys,
then each key against its `properties` entry or the
`additionalProperties` schema), then the array walk (`minItems`, then
`items` against every element). Fail-fast: the first error is the
result. -/
def _validate_against_schema (data schema : JValue) (path : String) : Except String Unit := do
  checkTypeStep data schema path
  checkEnumStep data schema path
  checkMinStep data schema path
  match data with
  | .obj kvs => do
    (match firstMissing kvs (getRequired schema) with
     | some e => Except.error (path ++ ": missing required key \x27" ++ jstr e ++ "\x27")
     | none => Except.ok ())
    validateProps kvs (getProperties schema) (getAdditional schema) path
  | .arr xs => do
    (match jget schema "minItems" with
     | none => Except.ok ()
     | some m =>
       match numVal m with
       | some mv =>
         if (xs.length : Rat) < mv then
           Except.error (path ++ ": expected at least " ++ jstr m ++ " item(s), got "
             ++ toString xs.length)
         else Except.ok ()
       | none => Except.ok ())
    (match jget schema "items" with
     | some (.obj o) => validateElems xs (.obj o) path 0
     | _ => Except.ok ())
  | _ => Except.ok ()

/-- The object walk of lines 62-67: each key is validated against its
`properties` schema when listed, else against the
`additionalProperties` schema when that is a mapping, else accepted. -/
def validateProps : List (String × JValue) → List (String × JValue) → Option JValue → String →
    Except String Unit
  | [], _, _, _ => Except.ok ()
  | (k, v) :: rest, props, additional, path => do
    (match List.lookup k props with
     | some psch => _validate_against_schema v psch (path ++ "." ++ k)
     | none =>
       match additional with
       | some a => _validate_against_schema v a (path ++ "." ++ k)
       | none => Except.ok ())
    validateProps rest props additional path

/-- The element walk of lines 76-79: every element against the `items`
schema, the index propagated into the path. -/
def validateElems : List JValue → JValue → String → Nat → Except String Unit
  | [], _, _, _ => Except.ok ()
  | x :: xs, itemSchema, path, idx => do
    _validate_against_schema x itemSchema (path ++ "[" ++ toString idx ++ "]")
    validateElems xs itemSchema path (idx + 1)
end

/-- Model of `load_contract` after JSON parsing: root-shape checks,
then schema validation of the contract; returns the raw contract. -/
def load_contract (contract_raw schema_raw : JValue) : Except String JValue :=
  if !contract_raw.isObj then Except.error "contract root must be an object"
  else if !schema_raw.isObj then Except.error "schema root must be an object"
  else
    match _validate_against_schema contract_raw schema_raw "$" with
    | Except.error e => Except.error e
    | Except.ok () => Except.ok contract_raw







/-! ## Contract model, resolver and drift detector

A validated contract is a Python dict; its consumers only read
`risk_tiers`, `checks` and `docs_drift_rules` through `.get` with
defaults, with the element fields again read through `.get` with
defaults. The structures below are those access patterns made typed:
an absent field is the default value. A check definition that is
present but not a dict is treated by the orchestrator exactly like an
absent one, so `checks` maps a name to its dict definition only. -/

structure RiskTier where
  path_globs : List String := []
  required_checks : List String := []
deriving Repr, DecidableEq

structure DriftRule where
  path_glob : String := ""
  must_update : List String := []
  human_notify : Bool := false
deriving Repr, DecidableEq

structure CheckDef where
  command : Option String := none
  timeout_sec : Option Int := none
deriving Repr, DecidableEq

structure Contract where
  risk_tiers : List RiskTier := []
  checks : List (String × CheckDef) := []
  docs_drift_rules : List DriftRule := []
deriving Repr, DecidableEq

/-- The inner accumulation of `required_checks_for_files`: append every
check of the tier that is not already present, keeping order. -/
def addChecks (checks : List String) (reqs : List String) : List String :=
  reqs.foldl (fun acc c => if c ∈ acc then acc else acc ++ [c]) checks

/-- The glob loop of `required_checks_for_files` for one changed file
and one tier: on the first matching glob, add the tier checks and stop
scanning the remaining globs (the `break` on line 113). -/
def globLoop (changed : String) (checks : List String) (globs : List String)
    (reqs : List String) : List String :=
  match globs with
  | [] => checks
  | g :: gs =>
    if fnmatch changed g then addChecks checks reqs
    else globLoop changed checks gs reqs

/-- Model of `required_checks_for_files(contract, changed_files)`:
start from the sentinel `contract_validate`, scan changed files in
order, tiers in declared order, globs in declared order with the
per-tier break. -/
def required_checks_for_files (contract : Contract) (changed_files : List String) :
    List String :=
  changed_files.foldl
    (fun checks changed =>
      contract.risk_tiers.foldl
        (fun checks tier => globLoop changed checks tier.path_globs tier.required_checks)
        checks)
    ["contract_validate"]

structure Violation where
  path_glob : String
  missing : List String
  human_notify : Bool
deriving Repr, DecidableEq

/-- The rule loop of `docs_drift_violations`, with the accumulating
`violations` list explicit: a rule is triggered when any changed file
matches its glob (`continue` otherwise); a triggered rule with a
non-empty `must_update`-minus-changed list appends one violation.
Membership in `changed_set` is list membership (the Python `set` only
dedups). -/
def drift_loop (changed_files : List String) (rules : List DriftRule)
    (violations : List Violation) : List Violation :=
  match rules with
  | [] => violations
  | rule :: rest =>
    let triggered := changed_files.any (fun path => fnmatch path rule.path_glob)
    if !triggered then drift_loop changed_files rest violations
    else
      let missing := rule.must_update.filter (fun doc => !(changed_files.contains doc))
      if !missing.isEmpty then
        drift_loop changed_files rest
          (violations ++ [{ path_glob := rule.path_glob, missing := missing,
                            human_notify := rule.human_notify }])
      else drift_loop changed_files rest violations

/-- Model of `docs_drift_violations(contract, changed_files)`: run the
rule loop over `contract.get("docs_drift_rules", [])` starting from an
empty violation list. -/
def docs_drift_violations (contract : Contract) (changed_files : List String) :
    List Violation :=
  drift_loop changed_files contract.docs_drift_rules []

/-! ## Check runner and orchestrator

`subprocess.run(command, ..., timeout=timeout_sec, check=False)` is an
external boundary; it is modelled by an oracle
`exec : String → Int → ProcResult` giving, per command and timeout,
either the completed process (exit code and both streams) or the fact
that the timeout expired. In the latter case `subprocess.run` raises
`subprocess.TimeoutExpired`; the source has no handler for it anywhere,
which the model renders as `Except.error`. -/

inductive ProcResult where
  | completed : Int → String → String → ProcResult
  | timedOut : ProcResult

/-- Python `str.strip()`: drop leading and trailing whitespace (ASCII
whitespace suffices for the claims). -/
def pyStrip (s : String) : String :=
  String.mk (((s.toList.dropWhile Char.isWhitespace).reverse.dropWhile
    Char.isWhitespace).reverse)

/-- Python `s[-n:]`. -/
def pyTail (s : String) (n : Nat) : String :=
  String.mk (s.toList.drop (s.toList.length - n))

/-- One per-check entry of the report; an `Option` field is a key the
Python dict only sometimes carries. -/
structure CheckOutcome where
  name : String
  status : String
  reason : Option String := none
  command : String
  exit_code : Int
  stdout : Option String := none
  stderr : Option String := none
deriving Repr, DecidableEq

/-- Model of `_run_check(check_name, check_def, repo_root)`: an empty
(or absent) command yields the failed `missing_command` outcome with
exit code 127 and no subprocess; otherwise the command runs under its
timeout (default 300) and exit code 0 maps to `passed`, anything else
to `failed`, streams truncated to their last 8000 characters. A
timeout raises `subprocess.TimeoutExpired`, which nothing catches. -/
def _run_check (check_name : String) (check_def : CheckDef)
    (exec : String → Int → ProcResult) : Except String CheckOutcome :=
  let command := pyStrip (check_def.command.getD "")
  let timeout_sec := check_def.timeout_sec.getD 300
  if command = "" then
    Except.ok { name := check_name, status := "failed", reason := some "missing_command",
                command := command, exit_code := 127 }
  else
    match exec command timeout_sec with
    | ProcResult.timedOut => Except.error "subprocess.TimeoutExpired"
    | ProcResult.completed code out err =>
      Except.ok { name := check_name,
                  status := if code = 0 then "passed" else "failed",
                  command := command, exit_code := code,
                  stdout := some (pyTail out 8000), stderr := some (pyTail err 8000) }

/-- The passed sentinel entry recorded on successful load (lines 117-124). -/
def contract_validate_passed : CheckOutcome :=
  { name := "contract_validate", status := "passed", command := "schema-validate",
    exit_code := 0 }

/-- The failed sentinel entry recorded on a load failure (lines 126-134). -/
def contract_validate_failed (exc : String) : CheckOutcome :=
  { name := "contract_validate", status := "failed", command := "schema-validate",
    exit_code := 1, stderr := some exc }

/-- The deferred entry for the reserved `reviewer_subagent` name. -/
def reviewer_deferred : CheckOutcome :=
  { name := "reviewer_subagent", status := "deferred", command := "handled_by_factory_loop",
    exit_code := 0 }

/-- The failed entry for a required check with no dict definition. -/
def missing_def_outcome (check : String) : CheckOutcome :=
  { name := check, status := "failed", reason := some "missing_check_definition",
    command := "", exit_code := 127 }

/-- The check loop of `main` (lines 142-169): skip the sentinel, defer
`reviewer_subagent`, fail a missing definition with exit code 127, and
otherwise run the check. An uncaught `TimeoutExpired` from
`_run_check` propagates (there is no handler in the loop either). -/
def run_required_checks (contract : Contract) (required : List String)
    (exec : String → Int → ProcResult) : Except String (List CheckOutcome) :=
  match required with
  | [] => Except.ok []
  | check :: rest =>
    if check = "contract_validate" then run_required_checks contract rest exec
    else if check = "reviewer_subagent" then do
      let tail ← run_required_checks contract rest exec
      Except.ok (reviewer_deferred :: tail)
    else
      match List.lookup check contract.checks with
      | none => do
        let tail ← run_required_checks contract rest exec
        Except.ok (missing_def_outcome check :: tail)
      | some cdef => do
        let oc ← _run_check check cdef exec
        let tail ← run_required_checks contract rest exec
        Except.ok (oc :: tail)

/-- The report record of `main`, restricted to the fields the claims
speak about (timestamps and resolved filesystem paths are environment
echoes). `docs_drift_status` and `docs_drift_violations` are the two
fields of the report's `docs_drift` object. -/
structure Report where
  changed_files : List String
  required_checks : List String
  checks : List CheckOutcome
  docs_drift_status : String
  docs_drift_violations : List Violation
  status : String
deriving Repr, DecidableEq

/-- Model of `main` after argument parsing and changed-file discovery
(both external): from the outcome of `load_contract` (already mapped
onto the typed contract), the final report and the process exit code.
On a load failure the report holds the single failed sentinel entry
and the run returns 1 at once; otherwise every resolved check runs
(an uncaught `TimeoutExpired` crashes the run: `Except.error`), drift
is computed, and the overall status and exit code are derived. -/
def main_run (loadResult : Except String Contract) (changed_files : List String)
    (exec : String → Int → ProcResult) : Except String (Report × Int) :=
  match loadResult with
  | Except.error exc =>
    Except.ok ({ changed_files := changed_files, required_checks := [],
                 checks := [contract_validate_failed exc],
                 docs_drift_status := "passed", docs_drift_violations := [],
                 status := "failed" }, 1)
  | Except.ok contract =>
    match run_required_checks contract (required_checks_for_files contract changed_files)
        exec with
    | Except.error e => Except.error e
    | Except.ok outcomes =>
      let checks := contract_validate_passed :: outcomes
      let drift := docs_drift_violations contract changed_files
      let docs_drift_status := if drift.isEmpty then "passed" else "failed"
      let failed_checks := checks.filter (fun c => c.status == "failed")
      let docs_failed := docs_drift_status == "failed"
      let status := if failed_checks.isEmpty && !docs_failed then "passed" else "failed"
      Except.ok ({ changed_files := changed_files,
                   required_checks := required_checks_for_files contract changed_files,
                   checks := checks, docs_drift_status := docs_drift_status,
                   docs_drift_violations := drift, status := status },
                 if status == "passed" then 0 else 1)



/-! ## Spec-side formulations for the refinement claims -/

/-- Formalization of the resolver sentence of the spec (section 4.3),
written from the spec words: start with the sentinel, and for each
changed file and each tier in declared order, if any of the tier globs
matches the file, append every not-yet-present tier check in
first-seen order. -/
def resolveSpec (contract : Contract) (changed_files : List String) : List String :=
  changed_files.foldl
    (fun checks changed =>
      contract.risk_tiers.foldl
        (fun checks tier =>
          if tier.path_globs.any (fun g => fnmatch changed g) then
            addChecks checks tier.required_checks
          else checks)
        checks)
    ["contract_validate"]

/-- The violation a single drift rule contributes, if any: `some` when
the rule is triggered and its missing list is non-empty. -/
def driftRuleViolation (changed_files : List String) (rule : DriftRule) : Option Violation :=
  let triggered := changed_files.any (fun path => fnmatch path rule.path_glob)
  let missing := rule.must_update.filter (fun doc => !(changed_files.contains doc))
  if triggered && !missing.isEmpty then
    some { path_glob := rule.path_glob, missing := missing, human_notify := rule.human_notify }
  else none

/-- Formalization of the drift sentence of the spec (section 4.4):
one violation per triggered rule with a non-empty missing list, in
rule order. -/
def driftSpec (contract : Contract) (changed_files : List String) : List Violation :=
  contract.docs_drift_rules.filterMap (driftRuleViolation changed_files)

/-- The report of a trivial completed run (empty contract, no changed
files), used to witness the aggregation theorem. -/
def trivialReport : Report :=
  { changed_files := [], required_checks := ["contract_validate"],
    checks := [contract_validate_passed], docs_drift_status := "passed",
    docs_drift_violations := [], status := "passed" }

/-! ## Lemmas about the resolver -/

theorem addChecks_exists_append (reqs checks : List String) :
    ∃ t, addChecks checks reqs = checks ++ t := by
  induction reqs generalizing checks with
  | nil => exact ⟨[], by simp [addChecks]⟩
  | cons c cs ih =>
    by_cases h : c ∈ checks
    · obtain ⟨t, ht⟩ := ih checks
      exact ⟨t, by simpa [addChecks, h] using ht⟩
    · obtain ⟨t, ht⟩ := ih (checks ++ [c])
      refine ⟨[c] ++ t, ?_⟩
      simpa [addChecks, h, List.append_assoc] using ht

theorem addChecks_nodup (reqs checks : List String) (h : checks.Nodup) :
    (addChecks checks reqs).Nodup := by
  induction reqs generalizing checks with
  | nil => simpa [addChecks] using h
  | cons c cs ih =>
    by_cases hc : c ∈ checks
    · simpa [addChecks, hc] using ih checks h
    · have h2 : (checks ++ [c]).Nodup := by
        simp [List.nodup_append, h, hc]
      simpa [addChecks, hc] using ih (checks ++ [c]) h2

theorem globLoop_eq (changed : String) (checks globs reqs : List String) :
    globLoop changed checks globs reqs =
      if globs.any (fun g => fnmatch changed g) then addChecks checks reqs else checks := by
  induction globs with
  | nil => simp [globLoop]
  | cons g gs ih =>
    by_cases h : fnmatch changed g <;> simp [globLoop, h, ih]

theorem foldl_exists_append {α : Type} (f : List String → α → List String)
    (hf : ∀ cs x, ∃ t, f cs x = cs ++ t) (xs : List α) (init : List String) :
    ∃ t, xs.foldl f init = init ++ t := by
  induction xs generalizing init with
  | nil => exact ⟨[], by simp⟩
  | cons x xs ih =>
    obtain ⟨t1, h1⟩ := hf init x
    obtain ⟨t2, h2⟩ := ih (f init x)
    exact ⟨t1 ++ t2, by rw [List.foldl_cons, h2, h1, List.append_assoc]⟩

theorem foldl_nodup {α : Type} (f : List String → α → List String)
    (hf : ∀ cs x, cs.Nodup → (f cs x).Nodup) (xs : List α) (init : List String)
    (h : init.Nodup) : (xs.foldl f init).Nodup := by
  induction xs generalizing init with
  | nil => simpa using h
  | cons x xs ih => exact ih (f init x) (hf init x h)

theorem resolver_step_exists_append (contract : Contract) (changed : String)
    (checks : List String) :
    ∃ t, contract.risk_tiers.foldl
        (fun cs tier => globLoop changed cs tier.path_globs tier.required_checks) checks
      = checks ++ t := by
  refine foldl_exists_append _ ?_ _ _
  intro cs tier
  rw [globLoop_eq]
  split
  · exact addChecks_exists_append _ _
  · exact ⟨[], by simp⟩

theorem resolver_step_nodup (contract : Contract) (changed : String)
    (checks : List String) (h : checks.Nodup) :
    (contract.risk_tiers.foldl
        (fun cs tier => globLoop changed cs tier.path_globs tier.required_checks) checks).Nodup := by
  refine foldl_nodup _ ?_ _ _ h
  intro cs tier hcs
  rw [globLoop_eq]
  split
  · exact addChecks_nodup _ _ hcs
  · exact hcs

/-- C5: for every contract and changed-file list the resolver output
begins with the sentinel `contract_validate`, equals the spec-worded
scan (files in order, tiers in declared order, a tier contributing all
of its not-yet-present checks once as soon as any of its globs matches
the file, in first-seen order, letting distinct tiers contribute for
the same file), and contains no duplicate check names. -/
theorem C5_resolver_shape (contract : Contract) (changed_files : List String) :
    required_checks_for_files contract changed_files = resolveSpec contract changed_files ∧
    (required_checks_for_files contract changed_files).head? = some "contract_validate" ∧
    (required_checks_for_files contract changed_files).Nodup := by
  refine ⟨?_, ?_, ?_⟩
  · unfold required_checks_for_files resolveSpec
    simp only [globLoop_eq]
  · obtain ⟨t, ht⟩ :=
      foldl_exists_append
        (fun checks changed =>
          contract.risk_tiers.foldl
            (fun cs tier => globLoop changed cs tier.path_globs tier.required_checks) checks)
        (fun cs changed => resolver_step_exists_append contract changed cs)
        changed_files ["contract_validate"]
    unfold required_checks_for_files
    rw [ht]
    rfl
  · refine foldl_nodup _ ?_ _ _ (by simp)
    intro cs changed hcs
    exact resolver_step_nodup contract changed cs hcs

/-! ## Lemmas about the drift detector -/

theorem driftRuleViolation_eq (changed_files : List String) (r : DriftRule) :
    driftRuleViolation changed_files r
      = (if changed_files.any (fun path => fnmatch path r.path_glob)
            && !((r.must_update.filter (fun doc => !(changed_files.contains doc))).isEmpty) then
           some { path_glob := r.path_glob,
                  missing := r.must_update.filter (fun doc => !(changed_files.contains doc)),
                  human_notify := r.human_notify }
         else none) := rfl

theorem drift_loop_cons (changed_files : List String) (r : DriftRule) (rs : List DriftRule)
    (violations : List Violation) :
    drift_loop changed_files (r :: rs) violations
      = (if !(changed_files.any (fun path => fnmatch path r.path_glob)) then
           drift_loop changed_files rs violations
         else if !((r.must_update.filter (fun doc => !(changed_files.contains doc))).isEmpty) then
           drift_loop changed_files rs
             (violations ++
               [{ path_glob := r.path_glob,
                  missing := r.must_update.filter (fun doc => !(changed_files.contains doc)),
                  human_notify := r.human_notify }])
         else drift_loop changed_files rs violations) := rfl

theorem drift_loop_eq (changed_files : List String) (rules : List DriftRule)
    (violations : List Violation) :
    drift_loop changed_files rules violations
      = violations ++ rules.filterMap (driftRuleViolation changed_files) := by
  induction rules generalizing violations with
  | nil => simp [drift_loop]
  | cons r rs ih =>
    rw [List.filterMap_cons, driftRuleViolation_eq, drift_loop_cons]
    cases htr : changed_files.any (fun path => fnmatch path r.path_glob)
    · simp only [htr, Bool.not_false, Bool.false_and, if_true, ite_true, ih]
      simp
    · cases hm : (r.must_update.filter (fun doc => !(changed_files.contains doc))).isEmpty
      · simp only [htr, hm, Bool.not_true, Bool.not_false, Bool.true_and, if_false, if_true,
          ite_true, ite_false, ih]
        simp [List.append_assoc]
      · simp only [htr, hm, Bool.not_true, Bool.not_false, Bool.true_and, if_false, if_true,
          ite_true, ite_false, ih]
        simp

theorem docs_drift_violations_eq_spec (contract : Contract) (changed_files : List String) :
    docs_drift_violations contract changed_files = driftSpec contract changed_files := by
  unfold docs_drift_violations driftSpec
  simpa using drift_loop_eq changed_files contract.docs_drift_rules []

/-- C6 (amended): the drift detector equals the spec-worded filterMap
over the rules: exactly one violation per triggered rule whose filtered
`must_update` list is non-empty, carrying the rule glob, the missing
list and the `human_notify` flag, in rule order; a contract with zero
rules yields zero violations; and the missing list (an
order-preserving filter of `must_update` by non-membership among the
changed files, not a deduplicating set difference) is duplicate-free
whenever the rule's `must_update` is. -/
theorem C6_drift_amended (contract : Contract) (changed_files : List String)
    (hnd : ∀ r ∈ contract.docs_drift_rules, r.must_update.Nodup) :
    docs_drift_violations contract changed_files = driftSpec contract changed_files ∧
    (contract.docs_drift_rules = [] → docs_drift_violations contract changed_files = []) ∧
    ∀ v ∈ docs_drift_violations contract changed_files, v.missing.Nodup := by
  refine ⟨docs_drift_violations_eq_spec contract changed_files, ?_, ?_⟩
  · intro h
    rw [docs_drift_violations_eq_spec, driftSpec, h]
    rfl
  · intro v hv
    rw [docs_drift_violations_eq_spec, driftSpec] at hv
    obtain ⟨r, hr, hsome⟩ := List.mem_filterMap.mp hv
    rw [driftRuleViolation_eq] at hsome
    cases hc : (changed_files.any (fun path => fnmatch path r.path_glob)
        && !(r.must_update.filter (fun doc => !(changed_files.contains doc))).isEmpty) with
    | false => rw [hc, if_neg (by simp)] at hsome; exact absurd hsome (by simp)
    | true =>
      rw [hc, if_pos rfl] at hsome
      have hm := Option.some.inj hsome
      rw [← hm]
      exact (hnd r hr).filter _

/-- C6 counterexample: a triggered rule whose `must_update` lists the
same document twice produces a violation whose `missing` list carries
the duplicate, so it is not a duplicate-free set difference. -/
theorem C6_counterexample :
    docs_drift_violations
      { docs_drift_rules :=
          [{ path_glob := "api/*", must_update := ["docs/api.md", "docs/api.md"] }] }
      ["api/routes.py"]
      = [{ path_glob := "api/*", missing := ["docs/api.md", "docs/api.md"],
           human_notify := false }] ∧
    ¬ (["docs/api.md", "docs/api.md"] : List String).Nodup := by
  exact ⟨by decide, by decide⟩

/-- C6 witness: the amended theorem applied to a concrete contract
whose rule is triggered and missing its documentation file. -/
theorem C6_drift_amended_witness :
    docs_drift_violations
      { docs_drift_rules :=
          [{ path_glob := "api/*", must_update := ["docs/api.md"], human_notify := true }] }
      ["api/routes.py"]
      = driftSpec
          { docs_drift_rules :=
              [{ path_glob := "api/*", must_update := ["docs/api.md"], human_notify := true }] }
          ["api/routes.py"] :=
  (C6_drift_amended
    { docs_drift_rules :=
        [{ path_glob := "api/*", must_update := ["docs/api.md"], human_notify := true }] }
    ["api/routes.py"] (by decide)).1

/-! ## Lemmas about the glob matcher -/

theorem matchToks_star_all (l : List Char) : matchToks [Tok.star] l = true := by
  induction l with
  | nil => rfl
  | cons c t ih =>
    show (suffixes (c :: t)).any (fun s => matchToks [] s) = true
    have htail : (suffixes t).any (fun s => matchToks [] s) = true := ih
    simp only [suffixes, List.any_cons, htail, Bool.or_true]

theorem matchToks_question_iff (l : List Char) :
    matchToks [Tok.question] l = decide (l.length = 1) := by
  cases l with
  | nil => rfl
  | cons c t => cases t <;> rfl

/-- C2 (amended): in the glob matching both the resolver and the
drift detector delegate to (`fnmatch`), `*` matches an arbitrary run
of characters with no per-segment restriction (a `/` separator is
crossed like any other character), and `?` matches exactly one
character, any character including `/`. -/
theorem C2_glob_amended :
    (∀ s : String, fnmatch s "*" = true) ∧
    (∀ s : String, fnmatch s "?" = decide (s.toList.length = 1)) ∧
    (∀ c : Char, fnmatch (String.mk [c]) "?" = true) := by
  refine ⟨?_, ?_, ?_⟩
  · intro s
    have h : tokenize "*".toList = [Tok.star] := rfl
    show matchToks (tokenize "*".toList) s.toList = true
    rw [h]
    exact matchToks_star_all s.toList
  · intro s
    have h : tokenize "?".toList = [Tok.question] := rfl
    show matchToks (tokenize "?".toList) s.toList = decide (s.toList.length = 1)
    rw [h]
    exact matchToks_question_iff s.toList
  · intro c
    have h : tokenize "?".toList = [Tok.question] := rfl
    show matchToks (tokenize "?".toList) (String.mk [c]).toList = true
    rw [h]
    exact matchToks_question_iff [c]

/-- C2 counterexample: the pattern `src/*.py` matches the changed file
`src/a/b.py`, whose matched run `a/b` crosses a `/` separator, and
both the resolver and the drift detector act on that match: the claim
that `*` never matches across a segment separator fails on the code. -/
theorem C2_counterexample :
    fnmatch "src/a/b.py" "src/*.py" = true ∧
    required_checks_for_files
      { risk_tiers := [{ path_globs := ["src/*.py"], required_checks := ["lint"] }] }
      ["src/a/b.py"] = ["contract_validate", "lint"] ∧
    docs_drift_violations
      { docs_drift_rules := [{ path_glob := "src/*.py", must_update := ["docs/layout.md"] }] }
      ["src/a/b.py"]
      = [{ path_glob := "src/*.py", missing := ["docs/layout.md"], human_notify := false }] := by
  exact ⟨by decide, by decide, by decide⟩

/-! ## Theorems about the check runner and the orchestrator -/

/-- C9: a check definition whose command is absent or empty makes the
runner return the failed `missing_command` outcome with exit code 127,
and the subprocess oracle is never consulted (the result is the same
under every oracle). -/
theorem C9_missing_command (check_name : String) (check_def : CheckDef)
    (exec : String → Int → ProcResult)
    (h : check_def.command = none ∨ check_def.command = some "") :
    _run_check check_name check_def exec
      = Except.ok { name := check_name, status := "failed", reason := some "missing_command",
                    command := "", exit_code := 127 } ∧
    ∀ exec2 : String → Int → ProcResult,
      _run_check check_name check_def exec2 = _run_check check_name check_def exec := by
  have hcmd : pyStrip (check_def.command.getD "") = "" := by
    rcases h with h | h <;> rw [h] <;> rfl
  constructor
  · unfold _run_check
    rw [hcmd]
    rfl
  · intro exec2
    unfold _run_check
    rw [hcmd]
    rfl

/-- C9 witness: the theorem at a concrete empty-command definition. -/
theorem C9_missing_command_witness :
    _run_check "lint" { command := some "" } (fun _ _ => ProcResult.timedOut)
      = Except.ok { name := "lint", status := "failed", reason := some "missing_command",
                    command := "", exit_code := 127 } :=
  (C9_missing_command "lint" { command := some "" } (fun _ _ => ProcResult.timedOut)
    (Or.inr rfl)).1

/-- C1: evaluation of the code at the failing input. A check whose
command does not finish within `timeout_sec` makes `subprocess.run`
raise `subprocess.TimeoutExpired`; neither `_run_check` nor the
orchestrator loop catches it, so the exception escapes `_run_check`
and crashes the whole gate run instead of being recorded as a failed
outcome with a timeout reason: the run produces no report at all. -/
theorem C1_timeout_crashes_gate :
    _run_check "slow" { command := some "sleep 5", timeout_sec := some 1 }
        (fun _ _ => ProcResult.timedOut)
      = Except.error "subprocess.TimeoutExpired" ∧
    main_run
        (Except.ok
          { risk_tiers := [{ path_globs := ["src/*.py"], required_checks := ["slow"] }],
            checks := [("slow", { command := some "sleep 5", timeout_sec := some 1 })] })
        ["src/app.py"] (fun _ _ => ProcResult.timedOut)
      = Except.error "subprocess.TimeoutExpired" := by
  exact ⟨rfl, rfl⟩

/-- C4: when the contract fails schema validation the orchestrator
returns, for every changed-file list, exit code 1 together with a
report holding exactly one check entry — the failed `contract_validate`
sentinel carrying the error text — with overall status `failed`, and
it consults no check (the run is identical under every subprocess
oracle, so no further check is attempted before the report is
written). -/
theorem C4_contract_validation_failure (exc : String) (changed_files : List String)
    (exec exec2 : String → Int → ProcResult) :
    main_run (Except.error exc) changed_files exec
      = Except.ok ({ changed_files := changed_files, required_checks := [],
                     checks := [contract_validate_failed exc],
                     docs_drift_status := "passed", docs_drift_violations := [],
                     status := "failed" }, 1) ∧
    main_run (Except.error exc) changed_files exec
      = main_run (Except.error exc) changed_files exec2 := by
  exact ⟨rfl, rfl⟩

theorem status_expr_passed_iff (checks : List CheckOutcome) (drift : List Violation) :
    ((if (checks.filter (fun c => c.status == "failed")).isEmpty &&
          !((if drift.isEmpty then "passed" else "failed") == "failed") then
        "passed" else "failed") = "passed")
      ↔ (∀ c ∈ checks, c.status ≠ "failed") ∧ drift = [] := by
  cases hf : (checks.filter (fun c => c.status == "failed")).isEmpty with
  | false =>
    have hne : checks.filter (fun c => c.status == "failed") ≠ [] := by
      intro hnil
      rw [hnil] at hf
      simp at hf
    obtain ⟨c, hc⟩ := List.exists_mem_of_ne_nil _ hne
    have hcmem := List.mem_of_mem_filter hc
    have hcfail : c.status = "failed" := by simpa using List.of_mem_filter hc
    apply iff_of_false
    · simp
    · rintro ⟨hall, -⟩
      exact hall c hcmem hcfail
  | true =>
    have hall : ∀ c ∈ checks, c.status ≠ "failed" := by
      intro c hc
      simpa using List.filter_eq_nil_iff.mp (List.isEmpty_iff.mp hf) c hc
    cases hd : drift.isEmpty with
    | false =>
      have hdne : drift ≠ [] := by
        intro hnil
        rw [hnil] at hd
        simp at hd
      apply iff_of_false
      · simp
      · rintro ⟨-, hnil⟩
        exact hdne hnil
    | true =>
      have hdr : drift = [] := List.isEmpty_iff.mp hd
      exact iff_of_true (by simp) ⟨hall, hdr⟩

theorem exit_code_iff (status : String) :
    ((if status == "passed" then (0 : Int) else 1) = 0 ↔ status = "passed") ∧
    ((if status == "passed" then (0 : Int) else 1) = 0 ∨
      (if status == "passed" then (0 : Int) else 1) = 1) := by
  cases hs : status == "passed" with
  | false =>
    have : status ≠ "passed" := by simpa using hs
    simp [hs, this]
  | true =>
    have : status = "passed" := by simpa using hs
    simp [hs, this]

/-- C7: for every gate run that completes (no uncaught exception), the
report's overall status is `passed` iff no recorded check outcome is
`failed` (a `deferred` outcome does not count) and the drift result
carries no violations; the exit code is 0 exactly when the status is
`passed`, and is never anything but 0 or 1. -/
theorem C7_overall_status (loadResult : Except String Contract) (changed_files : List String)
    (exec : String → Int → ProcResult) (r : Report) (code : Int)
    (h : main_run loadResult changed_files exec = Except.ok (r, code)) :
    (r.status = "passed" ↔
      (∀ c ∈ r.checks, c.status ≠ "failed") ∧ r.docs_drift_violations = []) ∧
    (code = 0 ↔ r.status = "passed") ∧
    (code = 0 ∨ code = 1) := by
  cases loadResult with
  | error exc =>
    unfold main_run at h
    simp only [Except.ok.injEq, Prod.mk.injEq] at h
    obtain ⟨hr, hcode⟩ := h
    subst hr
    subst hcode
    refine ⟨?_, by simp, by simp⟩
    simp [contract_validate_failed]
  | ok contract =>
    simp only [main_run] at h
    cases hrc : run_required_checks contract (required_checks_for_files contract changed_files)
        exec with
    | error e =>
      rw [hrc] at h
      exact absurd h (by simp)
    | ok outcomes =>
      rw [hrc] at h
      simp only [Except.ok.injEq, Prod.mk.injEq] at h
      obtain ⟨hr, hcode⟩ := h
      subst hr
      subst hcode
      refine ⟨?_, ?_, ?_⟩
      · exact status_expr_passed_iff (contract_validate_passed :: outcomes)
          (docs_drift_violations contract changed_files)
      · exact (exit_code_iff _).1
      · exact (exit_code_iff _).2

/-- C7 witness: the aggregation theorem at a concrete completed run. -/
theorem C7_overall_status_witness : trivialReport.status = "passed" :=
  ((C7_overall_status (Except.ok {}) [] (fun _ _ => ProcResult.timedOut)
      trivialReport 0 (by rfl)).2.1).mp rfl

/-- C3 counterexample: with the one-node schema whose `type` is the
unrecognized name `frobnicate`, the loader raises the same
`ContractValidationError` used for per-document validation failures
(the string is the only difference), and the orchestrator then records
it as the ordinary single failed `contract_validate` report entry and
writes the report — it is neither a distinct error class nor an abort
without a report entry. -/
theorem C3_counterexample :
    load_contract (.obj []) (.obj [("type", .str "frobnicate")])
      = Except.error "unsupported schema type: frobnicate" ∧
    main_run (Except.error "unsupported schema type: frobnicate") []
        (fun _ _ => ProcResult.timedOut)
      = Except.ok ({ changed_files := [], required_checks := [],
                     checks := [contract_validate_failed "unsupported schema type: frobnicate"],
                     docs_drift_status := "passed", docs_drift_violations := [],
                     status := "failed" }, 1) := by
  exact ⟨rfl, rfl⟩

theorem type_matches_none (t : String)
    (h : t ∉ ["object", "array", "string", "integer", "number", "boolean"]) (v : JValue) :
    type_matches t v = none := by
  simp only [List.mem_cons, List.not_mem_nil, or_false, not_or] at h
  obtain ⟨h1, h2, h3, h4, h5, h6⟩ := h
  simp [type_matches, h1, h2, h3, h4, h5, h6]

theorem checkTypeStep_unsupported (t : String)
    (h : t ∉ ["object", "array", "string", "integer", "number", "boolean"]) (hne : t ≠ "")
    (data schema : JValue) (hget : jget schema "type" = some (.str t)) (path : String) :
    checkTypeStep data schema path = Except.error ("unsupported schema type: " ++ t) := by
  unfold checkTypeStep
  simp only [hget]
  have htm := type_matches_none t h data
  simp [pyTruthy, hne, htm]

theorem validate_unsupported_type (t : String)
    (h : t ∉ ["object", "array", "string", "integer", "number", "boolean"]) (hne : t ≠ "")
    (kvs : List (String × JValue)) :
    _validate_against_schema (.obj kvs) (.obj [("type", .str t)]) "$"
      = Except.error ("unsupported schema type: " ++ t) := by
  have htype := checkTypeStep_unsupported t h hne (.obj kvs) (.obj [("type", .str t)])
    (by rfl) "$"
  unfold _validate_against_schema
  rw [htype]
  rfl

/-- C3 (amended): a schema node whose `type` is not one of the six
recognized kinds raises the very same `ContractValidationError` as a
per-document validation failure, from inside the validation walk; the
loader surfaces it, and the orchestrator catches it like any
validation failure, recording it as the single ordinary failed
`contract_validate` report entry, writing the report, running no check
and exiting 1 — it does abort before any check runs, but not as a
distinct, report-free configuration error. -/
theorem C3_unsupported_type_amended (t : String)
    (h : t ∉ ["object", "array", "string", "integer", "number", "boolean"]) (hne : t ≠ "")
    (kvs : List (String × JValue)) (changed_files : List String)
    (exec : String → Int → ProcResult) :
    load_contract (.obj kvs) (.obj [("type", .str t)])
      = Except.error ("unsupported schema type: " ++ t) ∧
    main_run (Except.error ("unsupported schema type: " ++ t)) changed_files exec
      = Except.ok ({ changed_files := changed_files, required_checks := [],
                     checks := [contract_validate_failed ("unsupported schema type: " ++ t)],
                     docs_drift_status := "passed", docs_drift_violations := [],
                     status := "failed" }, 1) := by
  constructor
  · have hv := validate_unsupported_type t h hne kvs
    unfold load_contract
    simp [JValue.isObj, hv]
  · rfl

/-- C3 witness: the amended theorem at the concrete unsupported type
name `weird`. -/
theorem C3_unsupported_type_witness :
    load_contract (.obj []) (.obj [("type", .str "weird")])
      = Except.error ("unsupported schema type: " ++ "weird") :=
  (C3_unsupported_type_amended "weird" (by decide) (by decide) [] []
    (fun _ _ => ProcResult.timedOut)).1

theorem checkTypeStep_integer_bool (p : String) (b : Bool) (schema : JValue)
    (h : jget schema "type" = some (.str "integer")) :
    checkTypeStep (.bool b) schema p
      = Except.error (p ++ ": expected integer, got boolean") := by
  unfold checkTypeStep
  simp only [h]
  rfl

theorem checkTypeStep_integer_int (p : String) (n : Int) (schema : JValue)
    (h : jget schema "type" = some (.str "integer")) :
    checkTypeStep (.int n) schema p = Except.ok () := by
  unfold checkTypeStep
  simp only [h]
  rfl

/-- C8: wherever a schema node carries `type=integer`, the validator
rejects every boolean value with the error naming the offending path
(even though `isinstance(b, int)` holds for booleans, the explicit
boolean guard fires), and accepts every non-boolean integer that
passes the node's enum and minimum checks. -/
theorem C8_integer_never_accepts_bool :
    (∀ (p : String) (b : Bool) (schema : JValue),
      jget schema "type" = some (.str "integer") →
      _validate_against_schema (.bool b) schema p
        = Except.error (p ++ ": expected integer, got boolean")) ∧
    (∀ (p : String) (n : Int) (schema : JValue),
      jget schema "type" = some (.str "integer") →
      checkEnumStep (.int n) schema p = Except.ok () →
      checkMinStep (.int n) schema p = Except.ok () →
      _validate_against_schema (.int n) schema p = Except.ok ()) := by
  constructor
  · intro p b schema h
    have ht := checkTypeStep_integer_bool p b schema h
    unfold _validate_against_schema
    rw [ht]
    rfl
  · intro p n schema h he hm
    have ht := checkTypeStep_integer_int p n schema h
    unfold _validate_against_schema
    rw [ht, he, hm]
    rfl

/-- C8 witness: the theorem at a concrete integer schema node carrying
both an enum and a minimum. -/
theorem C8_integer_never_accepts_bool_witness :
    _validate_against_schema (.bool true)
        (.obj [("type", .str "integer"), ("minimum", .int 1)]) "$"
      = Except.error ("$" ++ ": expected integer, got boolean") ∧
    _validate_against_schema (.int 2)
        (.obj [("type", .str "integer"), ("minimum", .int 1),
               ("enum", .arr [.int 1, .int 2])]) "$"
      = Except.ok () :=
  ⟨C8_integer_never_accepts_bool.1 "$" true _ (by rfl),
   C8_integer_never_accepts_bool.2 "$" 2 _ (by rfl) (by rfl) (by rfl)⟩

/-- C10: a schema node with `type=number` accepts booleans (the
explicit boolean rejection only guards `type=integer`), and the enum
and minimum checks read a boolean as its integer encoding: `True`
satisfies `minimum: 1` and matches an enum containing `1`. -/
theorem C10_number_accepts_bool :
    (∀ (b : Bool) (p : String),
      _validate_against_schema (.bool b) (.obj [("type", .str "number")]) p
        = Except.ok ()) ∧
    (∀ p : String,
      _validate_against_schema (.bool true)
          (.obj [("type", .str "number"), ("minimum", .int 1)]) p = Except.ok ()) ∧
    (∀ p : String,
      _validate_against_schema (.bool true)
          (.obj [("type", .str "number"), ("enum", .arr [.int 1])]) p = Except.ok ()) := by
  refine ⟨?_, ?_, ?_⟩
  · intro b p
    cases b <;> rfl
  · intro p
    rfl
  · intro p
    rfl
